import Mathlib

/-!
Verification of `scripts/setup_keycloak.py`, a Keycloak provisioning script.

The script is a bounded readiness-polling loop around an admin-token request,
followed by a sequence of check-then-create-or-update REST calls: upsert of an
OAuth client, upsert of two client roles, upsert of an admin user, and the
assignment of a client role to that user.

Shallow embedding: every HTTP interaction is mediated by a `Backend` oracle
that records, per call site, the response the server would give.  Each Python
function becomes a Lean function from the oracle (and its explicit arguments)
to the trace of observable events it performs - HTTP requests (with method and
structured URL), sleeps, and printed messages - together with its result.
Python's `sys.exit(1)` / falling off the end of `main` become an explicit exit
code.  Request bodies (JSON payloads) are not needed by any claim except for
which entity they target, which the structured URL captures; response JSON
bodies are modelled by exactly the fields the script reads (`["id"]` of the
first element of a list, `access_token`, the raw `.text` used in log lines).
-/

namespace SetupKeycloak

/-- HTTP methods used by the `requests` library calls in the script.
`DELETE` is included (the `requests` library offers it) so that the absence of
delete operations is a statement about traces, not about the event type. -/
inductive Method where
  | GET
  | POST
  | PUT
  | DELETE
deriving DecidableEq, Repr

/-- The URLs the script builds with f-strings, structured by endpoint.
All of them are rooted at `KEYCLOAK_URL` with realm `enterprise` except the
token endpoint, which lives under the `master` realm. -/
inductive Url where
  /-- `/realms/master/protocol/openid-connect/token` -/
  | tokenEndpoint
  /-- `/admin/realms/enterprise/clients?clientId={clientId}` -/
  | clientsQuery (clientId : String)
  /-- `/admin/realms/enterprise/clients` -/
  | clients
  /-- `/admin/realms/enterprise/clients/{uuid}` -/
  | client (uuid : String)
  /-- `/admin/realms/enterprise/clients/{clientUuid}/roles` -/
  | roles (clientUuid : String)
  /-- `/admin/realms/enterprise/clients/{clientUuid}/roles/{name}` -/
  | role (clientUuid : String) (name : String)
  /-- `/admin/realms/enterprise/users?username={username}&exact=true` -/
  | usersQuery (username : String)
  /-- `/admin/realms/enterprise/users` -/
  | users
  /-- `/admin/realms/enterprise/users/{userId}/role-mappings/clients/{clientUuid}` -/
  | clientRoleMappings (userId : String) (clientUuid : String)
deriving DecidableEq, Repr

/-- The payloads the script sends with its requests.  The fixed JSON
dictionaries (`client_data`, the `CLIENT_ROLES` entries,
`MICROSERVICES_ADMIN_USER`) are literals of the script, so they are
represented by which literal is sent; `roleList role` is the one-element
list `[role]` around the role object fetched by `get_client_role`;
`tokenForm` is the form-encoded password-grant payload. -/
inductive Body where
  /-- no JSON payload (all the GET requests) -/
  | empty
  /-- the form-encoded password-grant payload of `get_admin_token` -/
  | tokenForm
  /-- the full `client_data` dictionary of `create_client` (lines 59-75) -/
  | clientPayload
  /-- the `CLIENT_ROLES` entry with this name (lines 11-14) -/
  | rolePayload (name : String)
  /-- the `MICROSERVICES_ADMIN_USER` dictionary (lines 17-25) -/
  | userPayload
  /-- the one-element list `[role]` around the fetched role object -/
  | roleList (role : String)
deriving DecidableEq, Repr

/-- Observable events of a run: HTTP requests issued (method, URL, payload),
`time.sleep` calls and `print` calls. -/
inductive Event where
  | request (m : Method) (u : Url) (body : Body)
  | sleep (seconds : Nat)
  | print (msg : String)
deriving DecidableEq, Repr

/-- Outcome of one POST to the token endpoint, as seen by `get_admin_token`.
`unreachable` stands for any exception raised before a status code is
available (connection refused, malformed JSON, missing `access_token` key);
`http status token` stands for a response carrying `status` whose JSON body
has `token` under `access_token`. -/
inductive TokenResult where
  | unreachable
  | http (status : Nat) (access_token : String)
deriving DecidableEq, Repr

/-- A plain HTTP response: status code plus the raw body text the script
interpolates into its failure log lines. -/
structure Resp where
  status : Nat
  text : String
deriving DecidableEq, Repr

/-- A response to a list-returning lookup (`GET .../clients?clientId=...`,
`GET .../users?username=...`): status code plus the list of `id` fields of the
returned JSON array (the only field the script reads). -/
structure ListResp where
  status : Nat
  ids : List String
deriving DecidableEq, Repr

/-- A response to `GET .../roles/{name}`: status code plus the role JSON body
(kept opaque - the script only forwards it whole into the assignment POST). -/
structure RoleResp where
  status : Nat
  body : String
deriving DecidableEq, Repr

/-- The backend oracle: for each call site of the script, the response the
server gives.  `tokenAt i` is the response to the `i`-th (0-based) token
request of the readiness loop; the two `get_user_by_username` call sites get
separate fields because the server state may change between them. -/
structure Backend where
  /-- responses to the token requests of the readiness loop, by attempt index -/
  tokenAt : Nat → TokenResult
  /-- `GET clients?clientId=microservices` inside `create_client` -/
  clientLookup : ListResp
  /-- `PUT clients/{id}` inside `create_client` -/
  clientUpdate : Resp
  /-- `POST clients` inside `create_client` -/
  clientCreate : Resp
  /-- `GET clients?clientId=microservices` inside `get_client_uuid` -/
  uuidLookup : ListResp
  /-- status of `GET roles/{name}` inside `create_client_roles`, per role name -/
  roleCheckStatus : String → Nat
  /-- `POST roles` inside `create_client_roles`, per role name -/
  roleCreate : String → Resp
  /-- `GET users?username=...` before the create in `create_microservices_admin_user` -/
  userLookupPre : ListResp
  /-- `POST users` inside `create_microservices_admin_user` -/
  userCreate : Resp
  /-- `GET users?username=...` after the create in `create_microservices_admin_user` -/
  userLookupPost : ListResp
  /-- `GET roles/{name}` inside `get_client_role` -/
  roleFetch : RoleResp
  /-- `POST users/{id}/role-mappings/clients/{uuid}` in `assign_client_role_to_user` -/
  roleAssign : Resp

/-- The recurring response pattern `if res.status_code == 200 and
len(res.json()) > 0: return res.json()[0]...`: the first element when the
status is 200 and the list is non-empty, nothing otherwise. -/
def firstIfOk (r : ListResp) : Option String :=
  if r.status = 200 then r.ids.head? else none

/-- `get_admin_token` (lines 28-42): one POST of the password grant to the
token endpoint; `raise_for_status` raises on any status >= 400, and every
exception is caught, logged and turned into `None`. -/
def get_admin_token (r : TokenResult) : Option String × List Event :=
  match r with
  | .unreachable =>
      (none, [.request .POST .tokenEndpoint .tokenForm, .print "Error getting admin token"])
  | .http status t =>
      if 400 ≤ status then
        (none, [.request .POST .tokenEndpoint .tokenForm, .print "Error getting admin token"])
      else
        (some t, [.request .POST .tokenEndpoint .tokenForm])

/-- `get_client_uuid` (lines 45-52): look up a client by `clientId`, returning
the internal `id` of the first hit. -/
def get_client_uuid (r : ListResp) (client_id : String) : Option String × List Event :=
  (firstIfOk r, [.request .GET (.clientsQuery client_id) .empty])

/-- `get_user_by_username` (lines 126-133): exact-username lookup.  The source
returns the whole user JSON object; only its `id` field is ever read, so the
embedding returns that id. -/
def get_user_by_username (r : ListResp) (username : String) : Option String × List Event :=
  (firstIfOk r, [.request .GET (.usersQuery username) .empty])

/-- `create_client` (lines 55-93): look up the `microservices` client; if
found, PUT the full definition at the found internal id expecting 204,
otherwise POST it expecting 201; any other status is printed together with
the response body.  The lookup condition on lines 79-81 is the same
status-200-and-non-empty pattern as `get_client_uuid`. -/
def create_client (b : Backend) : List Event :=
  [Event.request .GET (.clientsQuery "microservices") .empty] ++
  match firstIfOk b.clientLookup with
  | some cid =>
      [.print "Client microservices already exists. Updating...",
       .request .PUT (.client cid) .clientPayload] ++
      (if b.clientUpdate.status = 204 then
        [Event.print "Successfully updated client microservices"]
      else
        [Event.print ("Failed to update client: " ++ b.clientUpdate.text)])
  | none =>
      [.print "Creating client microservices...",
       .request .POST .clients .clientPayload] ++
      (if b.clientCreate.status = 201 then
        [Event.print "Successfully created client microservices"]
      else
        [Event.print ("Failed to create client: " ++ b.clientCreate.text)])

/-- The role names of `CLIENT_ROLES` (lines 11-14); the descriptions only
appear inside the POSTed JSON body, which no claim inspects. -/
def CLIENT_ROLES : List String := ["MICROSERVICES_ADMIN", "MICROSERVICES_USER"]

/-- Body of the `for role in CLIENT_ROLES` loop of `create_client_roles`
(lines 101-113): check the role by name; on 200 skip, otherwise POST it
expecting 201, printing the body on any other status. -/
def upsertRole (b : Backend) (client_uuid : String) (name : String) : List Event :=
  [Event.request .GET (.role client_uuid name) .empty] ++
  if b.roleCheckStatus name = 200 then
    [Event.print ("Client role " ++ name ++ " already exists.")]
  else
    [Event.request .POST (.roles client_uuid) (.rolePayload name)] ++
    (if (b.roleCreate name).status = 201 then
      [Event.print ("Successfully created client role " ++ name)]
    else
      [Event.print ("Failed to create client role " ++ name ++ ": " ++ (b.roleCreate name).text)])

/-- `create_client_roles` (lines 96-113): the loop over `CLIENT_ROLES`. -/
def create_client_roles (b : Backend) (client_uuid : String) : List Event :=
  (CLIENT_ROLES.map (upsertRole b client_uuid)).flatten

/-- `get_client_role` (lines 116-123): fetch the role object by name; `None`
unless the status is 200. -/
def get_client_role (r : RoleResp) (client_uuid : String) (role_name : String) :
    Option String × List Event :=
  ((if r.status = 200 then some r.body else none),
   [.request .GET (.role client_uuid role_name) .empty])

/-- `assign_client_role_to_user` (lines 167-183): fetch the role object; if
absent, log and return without any assignment request; otherwise POST the
one-element list `[role]` to the role-mappings endpoint, treating 204 as
success, 409 as already-assigned success, and anything else as a logged
warning. -/
def assign_client_role_to_user (b : Backend) (user_id : String) (client_uuid : String)
    (role_name : String) : List Event :=
  (get_client_role b.roleFetch client_uuid role_name).2 ++
  match (get_client_role b.roleFetch client_uuid role_name).1 with
  | none => [Event.print ("Client role " ++ role_name ++ " not found")]
  | some role =>
      [Event.request .POST (.clientRoleMappings user_id client_uuid) (.roleList role)] ++
      (if b.roleAssign.status = 204 then
        [Event.print ("Successfully assigned role " ++ role_name ++ " to user")]
      else if b.roleAssign.status = 409 then
        [Event.print ("Role " ++ role_name ++ " already assigned to user")]
      else
        [Event.print ("Failed to assign role " ++ role_name ++ ": " ++ b.roleAssign.text)])

/-- `create_microservices_admin_user` (lines 136-164): look the user up by
username; if present reuse its id, otherwise POST it (expecting 201) and look
it up again to recover the server-assigned id, aborting if that second lookup
finds nothing; finally assign `MICROSERVICES_ADMIN`. -/
def create_microservices_admin_user (b : Backend) (client_uuid : String) : List Event :=
  (get_user_by_username b.userLookupPre "microservices-admin").2 ++
  match (get_user_by_username b.userLookupPre "microservices-admin").1 with
  | some user_id =>
      [Event.print "User microservices-admin already exists."] ++
      assign_client_role_to_user b user_id client_uuid "MICROSERVICES_ADMIN"
  | none =>
      [Event.request .POST .users .userPayload] ++
      if b.userCreate.status = 201 then
        [Event.print "Successfully created user microservices-admin"] ++
        (get_user_by_username b.userLookupPost "microservices-admin").2 ++
        match (get_user_by_username b.userLookupPost "microservices-admin").1 with
        | some user_id =>
            assign_client_role_to_user b user_id client_uuid "MICROSERVICES_ADMIN"
        | none => [Event.print "Failed to get created user ID"]
      else
        [Event.print ("Failed to create user: " ++ b.userCreate.text)]

/-- The body of `main` after a token has been obtained (lines 191-216): upsert
the client, resolve its UUID (exiting 1 if that fails), then roles, user and
role assignment, then the summary prints.  Returns the trace and the exit
code of the process from this point (reaching the `return` on line 216 makes
the process exit 0). -/
def provisionAfterReady (b : Backend) : List Event × Nat :=
  let evClient := create_client b
  let u := get_client_uuid b.uuidLookup "microservices"
  match u.1 with
  | none =>
      (evClient ++ u.2 ++ [Event.print "Failed to get microservices client UUID"], 1)
  | some client_uuid =>
      (evClient ++ u.2 ++
       create_client_roles b client_uuid ++
       create_microservices_admin_user b client_uuid ++
       [Event.print "Setup completed successfully!",
        Event.print "Username: microservices-admin",
        Event.print "Password: microservices-admin123",
        Event.print "Email: microservices-admin@example.com",
        Event.print "Client Role: MICROSERVICES_ADMIN"], 0)

/-- The `for i in range(30)` readiness loop of `main` (lines 188-219), with
the remaining attempt budget as fuel and `i` the index of the next attempt:
each iteration requests a token; on success it runs the provisioning body and
returns, otherwise it sleeps 2 seconds; an exhausted budget prints the
timed-out message and exits 1. -/
def waitLoop (b : Backend) (i : Nat) : Nat → List Event × Nat
  | 0 => ([Event.print "Timed out waiting for Keycloak."], 1)
  | fuel + 1 =>
      let t := get_admin_token (b.tokenAt i)
      match t.1 with
      | some _ =>
          let p := provisionAfterReady b
          (t.2 ++ [Event.print "Keycloak is ready."] ++ p.1, p.2)
      | none =>
          let rest := waitLoop b (i + 1) fuel
          (t.2 ++ [Event.sleep 2] ++ rest.1, rest.2)

/-- `main` (lines 186-219): the readiness loop with budget 30 starting at
attempt 0.  Result: the full trace of the process and its exit code. -/
def main (b : Backend) : List Event × Nat :=
  waitLoop b 0 30

/-- Is this event a POST to the token endpoint (an authentication attempt)? -/
def isTokenRequest : Event → Bool
  | .request .POST .tokenEndpoint _ => true
  | _ => false

/-- Number of authentication attempts in a trace. -/
def authAttempts (evs : List Event) : Nat := evs.countP isTokenRequest

/-- Is this event a `time.sleep` call? -/
def isSleepEvent : Event → Bool
  | .sleep _ => true
  | _ => false

/-- Number of sleeps in a trace. -/
def sleepCount (evs : List Event) : Nat := evs.countP isSleepEvent

/-- Is this event an HTTP DELETE request? -/
def isDeleteRequest : Event → Bool
  | .request .DELETE _ _ => true
  | _ => false

/-- Is this event a request to the admin API (any request other than to the
token endpoint), i.e. a provisioning step? -/
def isAdminRequest : Event → Bool
  | .request _ .tokenEndpoint _ => false
  | .request _ _ _ => true
  | _ => false

/-- Does this token-endpoint outcome yield a token (status strictly below
400, so `raise_for_status` does not raise)? -/
def tokenOk : TokenResult → Bool
  | .unreachable => false
  | .http status _ => decide (status < 400)

/-- An event that belongs to the provisioning phase: not an authentication
attempt, not a sleep, not a delete. -/
def quietEvent (e : Event) : Bool :=
  !(isTokenRequest e || isSleepEvent e || isDeleteRequest e)

/-- The readiness polling succeeds exactly when some of the 30 token attempts
would have yielded a token. -/
def ready (b : Backend) : Prop :=
  ∃ i, i < 30 ∧ tokenOk (b.tokenAt i) = true

/-- A concrete backend: ready at the first attempt, every lookup finds
nothing, every create succeeds (an empty, healthy server). -/
def bEmpty : Backend :=
  ⟨fun _ => .http 200 "token",
   ⟨200, []⟩, ⟨204, ""⟩, ⟨201, ""⟩,
   ⟨200, ["uuid-1"]⟩,
   fun _ => 404, fun _ => ⟨201, ""⟩,
   ⟨200, []⟩, ⟨201, ""⟩, ⟨200, ["user-1"]⟩,
   ⟨200, "role-json"⟩, ⟨204, ""⟩⟩

/-- A concrete backend whose token endpoint is never reachable. -/
def bFail : Backend :=
  ⟨fun _ => .unreachable,
   ⟨200, []⟩, ⟨204, ""⟩, ⟨201, ""⟩,
   ⟨200, ["uuid-1"]⟩,
   fun _ => 404, fun _ => ⟨201, ""⟩,
   ⟨200, []⟩, ⟨201, ""⟩, ⟨200, ["user-1"]⟩,
   ⟨200, "role-json"⟩, ⟨204, ""⟩⟩

/-- A concrete backend that answers the role-mapping POST with 201 Created
(instead of the 204 the script expects). -/
def bAssign201 : Backend :=
  ⟨fun _ => .http 200 "token",
   ⟨200, []⟩, ⟨204, ""⟩, ⟨201, ""⟩,
   ⟨200, ["uuid-1"]⟩,
   fun _ => 404, fun _ => ⟨201, ""⟩,
   ⟨200, []⟩, ⟨201, ""⟩, ⟨200, ["user-1"]⟩,
   ⟨200, "role-json"⟩, ⟨201, "created"⟩⟩

/-- A concrete backend where the user does not exist, its creation succeeds,
but the post-create lookup still finds nothing. -/
def bUserLost : Backend :=
  ⟨fun _ => .http 200 "token",
   ⟨200, []⟩, ⟨204, ""⟩, ⟨201, ""⟩,
   ⟨200, ["uuid-1"]⟩,
   fun _ => 404, fun _ => ⟨201, ""⟩,
   ⟨200, []⟩, ⟨201, ""⟩, ⟨200, []⟩,
   ⟨200, "role-json"⟩, ⟨204, ""⟩⟩

/-- A concrete backend where the user does not exist and its creation is
rejected with a 409 conflict. -/
def bUserFail : Backend :=
  ⟨fun _ => .http 200 "token",
   ⟨200, []⟩, ⟨204, ""⟩, ⟨201, ""⟩,
   ⟨200, ["uuid-1"]⟩,
   fun _ => 404, fun _ => ⟨201, ""⟩,
   ⟨200, []⟩, ⟨409, "conflict"⟩, ⟨200, ["user-1"]⟩,
   ⟨200, "role-json"⟩, ⟨204, ""⟩⟩

lemma get_admin_token_isSome (r : TokenResult) :
    ((get_admin_token r).1).isSome = tokenOk r := by
  cases r with
  | unreachable => rfl
  | http s t =>
      unfold get_admin_token tokenOk
      by_cases h : 400 ≤ s
      · have h2 : ¬s < 400 := by omega
        simp [if_pos h, h2]
      · have h2 : s < 400 := by omega
        simp [if_neg h, h2]

lemma get_admin_token_fail (r : TokenResult) (h : tokenOk r = false) :
    get_admin_token r =
      (none, [.request .POST .tokenEndpoint .tokenForm, .print "Error getting admin token"]) := by
  cases r with
  | unreachable => rfl
  | http s t =>
      unfold get_admin_token
      unfold tokenOk at h
      split <;> simp_all

lemma get_admin_token_ok (r : TokenResult) (h : tokenOk r = true) :
    ∃ t, get_admin_token r = (some t, [.request .POST .tokenEndpoint .tokenForm]) := by
  cases r with
  | unreachable => simp [tokenOk] at h
  | http s t =>
      unfold tokenOk at h
      exact ⟨t, by unfold get_admin_token; split <;> simp_all⟩

lemma quiet_upsertRole (b : Backend) (cu name : String) :
    (upsertRole b cu name).all quietEvent = true := by
  unfold upsertRole
  split
  · rfl
  · split <;> rfl

lemma quiet_create_client (b : Backend) :
    (create_client b).all quietEvent = true := by
  unfold create_client
  split <;> split <;> rfl

lemma quiet_create_client_roles (b : Backend) (cu : String) :
    (create_client_roles b cu).all quietEvent = true := by
  unfold create_client_roles CLIENT_ROLES
  simp only [List.map, List.flatten, List.all_append, List.append_nil]
  simp [quiet_upsertRole b cu]

lemma quiet_assign (b : Backend) (uid cu rn : String) :
    (assign_client_role_to_user b uid cu rn).all quietEvent = true := by
  unfold assign_client_role_to_user get_client_role
  split_ifs <;> rfl

lemma quiet_user (b : Backend) (cu : String) :
    (create_microservices_admin_user b cu).all quietEvent = true := by
  unfold create_microservices_admin_user get_user_by_username
  cases hpre : firstIfOk b.userLookupPre with
  | some uid => simp [quiet_assign b uid cu "MICROSERVICES_ADMIN", quietEvent, isTokenRequest, isSleepEvent, isDeleteRequest]
  | none =>
      by_cases hc : b.userCreate.status = 201
      · simp only [if_pos hc]
        cases hpost : firstIfOk b.userLookupPost with
        | some uid => simp [quiet_assign b uid cu "MICROSERVICES_ADMIN", quietEvent, isTokenRequest, isSleepEvent, isDeleteRequest]
        | none => rfl
      · simp [if_neg hc, quietEvent, isTokenRequest, isSleepEvent, isDeleteRequest]

lemma quiet_provision (b : Backend) :
    (provisionAfterReady b).1.all quietEvent = true := by
  unfold provisionAfterReady get_client_uuid
  cases h : firstIfOk b.uuidLookup with
  | none => simp [quiet_create_client b, quietEvent, isTokenRequest, isSleepEvent, isDeleteRequest]
  | some cu =>
      simp [quiet_create_client b, quiet_create_client_roles b cu, quiet_user b cu, quietEvent, isTokenRequest, isSleepEvent, isDeleteRequest]

lemma counts_of_quiet (l : List Event) (h : l.all quietEvent = true) :
    authAttempts l = 0 ∧ sleepCount l = 0 ∧ l.countP isDeleteRequest = 0 := by
  rw [List.all_eq_true] at h
  unfold authAttempts sleepCount
  refine ⟨?_, ?_, ?_⟩ <;> rw [List.countP_eq_zero] <;> intro a ha <;>
    have hq := h a ha <;> unfold quietEvent at hq <;> simp at hq <;> simp [hq]

lemma authAttempts_append (l1 l2 : List Event) :
    authAttempts (l1 ++ l2) = authAttempts l1 + authAttempts l2 :=
  List.countP_append _ _ _

lemma sleepCount_append (l1 l2 : List Event) :
    sleepCount (l1 ++ l2) = sleepCount l1 + sleepCount l2 :=
  List.countP_append _ _ _

lemma counts_provision (b : Backend) :
    authAttempts (provisionAfterReady b).1 = 0 ∧
    sleepCount (provisionAfterReady b).1 = 0 ∧
    (provisionAfterReady b).1.countP isDeleteRequest = 0 :=
  counts_of_quiet _ (quiet_provision b)

lemma evalAuthFailReq :
    authAttempts [Event.request .POST .tokenEndpoint .tokenForm, Event.print "Error getting admin token"] = 1 := by
  decide

lemma evalAuthOkReq : authAttempts [Event.request .POST .tokenEndpoint .tokenForm] = 1 := by decide

lemma evalAuthSleep : authAttempts [Event.sleep 2] = 0 := by decide

lemma evalAuthReadyPrint : authAttempts [Event.print "Keycloak is ready."] = 0 := by decide

lemma evalSleepFailReq :
    sleepCount [Event.request .POST .tokenEndpoint .tokenForm, Event.print "Error getting admin token"] = 0 := by
  decide

lemma evalSleepOkReq : sleepCount [Event.request .POST .tokenEndpoint .tokenForm] = 0 := by decide

lemma evalSleepSleep : sleepCount [Event.sleep 2] = 1 := by decide

lemma evalSleepReadyPrint : sleepCount [Event.print "Keycloak is ready."] = 0 := by decide

lemma evalAdminFailReq :
    List.countP isAdminRequest
      [Event.request .POST .tokenEndpoint .tokenForm, Event.print "Error getting admin token"] = 0 := by
  decide

lemma evalAdminSleep : List.countP isAdminRequest [Event.sleep 2] = 0 := by decide

lemma evalDelFailReq :
    List.countP isDeleteRequest
      [Event.request .POST .tokenEndpoint .tokenForm, Event.print "Error getting admin token"] = 0 := by
  decide

lemma evalDelOkReq : List.countP isDeleteRequest [Event.request .POST .tokenEndpoint .tokenForm] = 0 := by
  decide

lemma evalDelSleep : List.countP isDeleteRequest [Event.sleep 2] = 0 := by decide

lemma evalDelReadyPrint : List.countP isDeleteRequest [Event.print "Keycloak is ready."] = 0 := by
  decide

lemma waitLoop_allFail (b : Backend) (fuel : Nat) :
    ∀ i, (∀ j, j < fuel → tokenOk (b.tokenAt (i + j)) = false) →
      authAttempts (waitLoop b i fuel).1 = fuel ∧
      sleepCount (waitLoop b i fuel).1 = fuel ∧
      (waitLoop b i fuel).2 = 1 ∧
      Event.print "Timed out waiting for Keycloak." ∈ (waitLoop b i fuel).1 ∧
      (waitLoop b i fuel).1.countP isAdminRequest = 0 := by
  induction fuel with
  | zero =>
      intro i _
      exact ⟨rfl, rfl, rfl, by simp [waitLoop], rfl⟩
  | succ f ih =>
      intro i h
      have h0 : tokenOk (b.tokenAt i) = false := by simpa using h 0 (by omega)
      obtain ⟨ha, hs, he, hm, hadm⟩ := ih (i + 1)
        (fun j hj => by
          have hx := h (j + 1) (by omega)
          rwa [show i + (j + 1) = i + 1 + j by omega] at hx)
      refine ⟨?_, ?_, ?_, ?_, ?_⟩
      · simp only [waitLoop, get_admin_token_fail _ h0]
        rw [authAttempts_append, authAttempts_append, ha, evalAuthFailReq, evalAuthSleep]
        omega
      · simp only [waitLoop, get_admin_token_fail _ h0]
        rw [sleepCount_append, sleepCount_append, hs, evalSleepFailReq, evalSleepSleep]
        omega
      · simp only [waitLoop, get_admin_token_fail _ h0]
        exact he
      · simp only [waitLoop, get_admin_token_fail _ h0]
        simp [hm]
      · simp only [waitLoop, get_admin_token_fail _ h0]
        rw [List.countP_append, List.countP_append, hadm, evalAdminFailReq, evalAdminSleep]

lemma waitLoop_success (b : Backend) (d : Nat) :
    ∀ fuel i, d < fuel →
      (∀ j, j < d → tokenOk (b.tokenAt (i + j)) = false) →
      tokenOk (b.tokenAt (i + d)) = true →
      authAttempts (waitLoop b i fuel).1 = d + 1 ∧
      sleepCount (waitLoop b i fuel).1 = d ∧
      Event.print "Keycloak is ready." ∈ (waitLoop b i fuel).1 ∧
      (waitLoop b i fuel).2 = (provisionAfterReady b).2 := by
  induction d with
  | zero =>
      intro fuel i hlt _ hok
      cases fuel with
      | zero => omega
      | succ f =>
          obtain ⟨t, ht⟩ := get_admin_token_ok _ (by simpa using hok)
          refine ⟨?_, ?_, ?_, ?_⟩
          · simp only [waitLoop, ht]
            rw [authAttempts_append, authAttempts_append, evalAuthOkReq, evalAuthReadyPrint,
              (counts_provision b).1]
          · simp only [waitLoop, ht]
            rw [sleepCount_append, sleepCount_append, evalSleepOkReq, evalSleepReadyPrint,
              (counts_provision b).2.1]
          · simp [waitLoop, ht]
          · simp [waitLoop, ht]
  | succ d ih =>
      intro fuel i hlt hfail hok
      cases fuel with
      | zero => omega
      | succ f =>
          have h0 : tokenOk (b.tokenAt i) = false := by simpa using hfail 0 (by omega)
          obtain ⟨ha, hs, hm, he⟩ := ih f (i + 1) (by omega)
            (fun j hj => by
              have hx := hfail (j + 1) (by omega)
              rwa [show i + (j + 1) = i + 1 + j by omega] at hx)
            (by rwa [show i + (d + 1) = i + 1 + d by omega] at hok)
          refine ⟨?_, ?_, ?_, ?_⟩
          · simp only [waitLoop, get_admin_token_fail _ h0]
            rw [authAttempts_append, authAttempts_append, ha, evalAuthFailReq, evalAuthSleep]
            omega
          · simp only [waitLoop, get_admin_token_fail _ h0]
            rw [sleepCount_append, sleepCount_append, hs, evalSleepFailReq, evalSleepSleep]
            omega
          · simp only [waitLoop, get_admin_token_fail _ h0]
            simp [hm]
          · simp only [waitLoop, get_admin_token_fail _ h0]
            exact he

lemma waitLoop_exit_of_ready (b : Backend) (fuel : Nat) :
    ∀ i, (∃ j, j < fuel ∧ tokenOk (b.tokenAt (i + j)) = true) →
      (waitLoop b i fuel).2 = (provisionAfterReady b).2 := by
  induction fuel with
  | zero =>
      intro i hj
      obtain ⟨j, hj, _⟩ := hj
      omega
  | succ f ih =>
      intro i hj
      obtain ⟨j, hjf, hok⟩ := hj
      by_cases h0 : tokenOk (b.tokenAt i) = true
      · obtain ⟨t, ht⟩ := get_admin_token_ok _ h0
        simp [waitLoop, ht]
      · rw [Bool.not_eq_true] at h0
        simp only [waitLoop, get_admin_token_fail _ h0]
        apply ih (i + 1)
        cases j with
        | zero =>
            rw [Nat.add_zero] at hok
            rw [hok] at h0
            exact absurd h0 (by simp)
        | succ j =>
            exact ⟨j, by omega, by rwa [show i + 1 + j = i + (j + 1) by omega]⟩

lemma waitLoop_noDelete (b : Backend) (fuel : Nat) :
    ∀ i, (waitLoop b i fuel).1.countP isDeleteRequest = 0 := by
  induction fuel with
  | zero => intro i; rfl
  | succ f ih =>
      intro i
      by_cases h0 : tokenOk (b.tokenAt i) = true
      · obtain ⟨t, ht⟩ := get_admin_token_ok _ h0
        simp only [waitLoop, ht]
        rw [List.countP_append, List.countP_append, evalDelOkReq, evalDelReadyPrint,
          (counts_provision b).2.2]
      · rw [Bool.not_eq_true] at h0
        simp only [waitLoop, get_admin_token_fail _ h0]
        rw [List.countP_append, List.countP_append, ih (i + 1), evalDelFailReq, evalDelSleep]

lemma provision_exit (b : Backend) :
    (provisionAfterReady b).2 = if firstIfOk b.uuidLookup = none then 1 else 0 := by
  unfold provisionAfterReady get_client_uuid
  cases h : firstIfOk b.uuidLookup <;> simp [h]

/-- C2: for every attempt budget N >= 1 and every backend whose token
endpoint first yields a token on attempt k <= N (attempts 1-indexed), the
readiness-polling loop reaches the ready branch after exactly k
authentication attempts, having performed exactly k - 1 sleeps of the fixed
interval. -/
theorem claimC2 (b : Backend) (N k : Nat) (h1 : 1 ≤ k) (h2 : k ≤ N)
    (hfail : ∀ j, j < k - 1 → tokenOk (b.tokenAt j) = false)
    (hok : tokenOk (b.tokenAt (k - 1)) = true) :
    authAttempts (waitLoop b 0 N).1 = k ∧
    sleepCount (waitLoop b 0 N).1 = k - 1 ∧
    Event.print "Keycloak is ready." ∈ (waitLoop b 0 N).1 := by
  obtain ⟨ha, hs, hm, _⟩ := waitLoop_success b (k - 1) N 0 (by omega)
    (fun j hj => by simpa using hfail j hj)
    (by simpa using hok)
  exact ⟨by omega, hs, hm⟩

theorem claimC2_witness :
    authAttempts (waitLoop bEmpty 0 1).1 = 1 ∧
    sleepCount (waitLoop bEmpty 0 1).1 = 0 ∧
    Event.print "Keycloak is ready." ∈ (waitLoop bEmpty 0 1).1 :=
  claimC2 bEmpty 1 1 (by decide) (by decide)
    (fun j hj => absurd hj (by omega)) (by decide)

/-- C3: if the token acquisition fails on every one of the 30 attempts, the
process performs exactly 30 authentication attempts, prints the timed-out
message, exits with status 1, and issues no provisioning (admin API)
request at all. -/
theorem claimC3 (b : Backend)
    (hfail : ∀ i, i < 30 → tokenOk (b.tokenAt i) = false) :
    authAttempts (main b).1 = 30 ∧
    (main b).2 = 1 ∧
    Event.print "Timed out waiting for Keycloak." ∈ (main b).1 ∧
    (main b).1.countP isAdminRequest = 0 := by
  obtain ⟨ha, _, he, hm, hadm⟩ :=
    waitLoop_allFail b 30 0 (fun j hj => by simpa using hfail j hj)
  exact ⟨ha, he, hm, hadm⟩

theorem claimC3_witness :
    authAttempts (main bFail).1 = 30 ∧
    (main bFail).2 = 1 ∧
    Event.print "Timed out waiting for Keycloak." ∈ (main bFail).1 ∧
    (main bFail).1.countP isAdminRequest = 0 :=
  claimC3 bFail (fun _ _ => rfl)

/-- C10: when every one of the 30 token attempts fails, the loop performs
exactly 30 sleeps of the 2-second interval: a sleep follows the final failed
attempt as well, before the timed-out exit. -/
theorem claimC10 (b : Backend)
    (hfail : ∀ i, i < 30 → tokenOk (b.tokenAt i) = false) :
    sleepCount (main b).1 = 30 :=
  (waitLoop_allFail b 30 0 (fun j hj => by simpa using hfail j hj)).2.1

theorem claimC10_witness : sleepCount (main bFail).1 = 30 :=
  claimC10 bFail (fun _ _ => rfl)

/-- C7: the process exit code is always 0 or 1; it is 0 exactly when the
readiness polling succeeds and the post-upsert client UUID lookup finds the
client, and 1 exactly when readiness times out or that lookup finds
nothing. -/
theorem claimC7 (b : Backend) :
    ((main b).2 = 0 ∨ (main b).2 = 1) ∧
    ((main b).2 = 0 ↔ (ready b ∧ firstIfOk b.uuidLookup ≠ none)) ∧
    ((main b).2 = 1 ↔ (¬ready b ∨ firstIfOk b.uuidLookup = none)) := by
  by_cases hready : ready b
  · obtain ⟨j, hj30, hok⟩ := hready
    have hexit : (main b).2 = (provisionAfterReady b).2 :=
      waitLoop_exit_of_ready b 30 0 ⟨j, hj30, by simpa using hok⟩
    have hready2 : ready b := ⟨j, hj30, hok⟩
    rw [hexit, provision_exit b]
    by_cases hu : firstIfOk b.uuidLookup = none <;> simp [hu, hready2]
  · have hfail : ∀ j, j < 30 → tokenOk (b.tokenAt (0 + j)) = false := by
      intro j hj
      by_contra hc
      rw [Bool.not_eq_false] at hc
      exact hready ⟨j, hj, by simpa using hc⟩
    have hexit1 : (main b).2 = 1 := (waitLoop_allFail b 30 0 hfail).2.2.1
    rw [hexit1]
    simp [hready]

lemma users_not_in_assign (b : Backend) (uid cu rn : String) (bdy : Body) :
    Event.request .POST .users bdy ∉ assign_client_role_to_user b uid cu rn := by
  unfold assign_client_role_to_user get_client_role
  split_ifs <;> simp

/-- C1: for each provisioned entity kind (client, client role, user) the
trace starts with the lookup for that entity, the create request appears
exactly when the lookup finds nothing, the client update is a PUT addressed
by the looked-up internal identifier, a found role or user triggers no
create, and no DELETE request ever appears in a whole run. -/
theorem claimC1 (b : Backend) (cu name : String) :
    (main b).1.countP isDeleteRequest = 0 ∧
    (create_client b).head? = some (.request .GET (.clientsQuery "microservices") .empty) ∧
    (Event.request .POST .clients .clientPayload ∈ create_client b ↔
      firstIfOk b.clientLookup = none) ∧
    (∀ cid, Event.request .PUT (.client cid) .clientPayload ∈ create_client b ↔
      firstIfOk b.clientLookup = some cid) ∧
    (upsertRole b cu name).head? = some (.request .GET (.role cu name) .empty) ∧
    (Event.request .POST (.roles cu) (.rolePayload name) ∈ upsertRole b cu name ↔
      b.roleCheckStatus name ≠ 200) ∧
    (create_microservices_admin_user b cu).head? =
      some (.request .GET (.usersQuery "microservices-admin") .empty) ∧
    (Event.request .POST .users .userPayload ∈ create_microservices_admin_user b cu ↔
      firstIfOk b.userLookupPre = none) := by
  refine ⟨waitLoop_noDelete b 30 0, rfl, ?_, ?_, rfl, ?_, rfl, ?_⟩
  · by_cases h2 : b.clientUpdate.status = 204 <;> by_cases h3 : b.clientCreate.status = 201 <;>
      cases h : firstIfOk b.clientLookup <;> simp [create_client, h, h2, h3]
  · intro cid
    by_cases h2 : b.clientUpdate.status = 204 <;> by_cases h3 : b.clientCreate.status = 201 <;>
      cases h : firstIfOk b.clientLookup <;> simp [create_client, h, h2, h3, eq_comm]
  · by_cases h : b.roleCheckStatus name = 200 <;>
      by_cases h2 : (b.roleCreate name).status = 201 <;> simp [upsertRole, h, h2]
  · cases hpre : firstIfOk b.userLookupPre with
    | some uid =>
        simp [create_microservices_admin_user, get_user_by_username, hpre,
          users_not_in_assign b uid cu "MICROSERVICES_ADMIN" .userPayload]
    | none =>
        by_cases hc : b.userCreate.status = 201
        · cases hpost : firstIfOk b.userLookupPost <;>
            simp [create_microservices_admin_user, get_user_by_username, hpre, hpost, hc]
        · simp [create_microservices_admin_user, get_user_by_username, hpre, hc]

/-- C4: upsert of the client looks the client up first; when the lookup
finds it, a PUT addressed by the found internal identifier follows, a 204
status yields the success message and any other status is logged together
with the response body; when the lookup finds nothing, a POST follows, a
201 status yields the success message and any other status is logged with
the body; the operation is a total function, so no exception propagates and
the run continues. -/
theorem claimC4 (b : Backend) :
    (create_client b).head? = some (.request .GET (.clientsQuery "microservices") .empty) ∧
    (∀ cid, firstIfOk b.clientLookup = some cid →
      Event.request .PUT (.client cid) .clientPayload ∈ create_client b ∧
      (∀ bdy, Event.request .POST .clients bdy ∉ create_client b) ∧
      (b.clientUpdate.status = 204 →
        Event.print "Successfully updated client microservices" ∈ create_client b) ∧
      (b.clientUpdate.status ≠ 204 →
        Event.print ("Failed to update client: " ++ b.clientUpdate.text) ∈ create_client b)) ∧
    (firstIfOk b.clientLookup = none →
      Event.request .POST .clients .clientPayload ∈ create_client b ∧
      (∀ cid bdy, Event.request .PUT (.client cid) bdy ∉ create_client b) ∧
      (b.clientCreate.status = 201 →
        Event.print "Successfully created client microservices" ∈ create_client b) ∧
      (b.clientCreate.status ≠ 201 →
        Event.print ("Failed to create client: " ++ b.clientCreate.text) ∈ create_client b)) := by
  refine ⟨rfl, ?_, ?_⟩
  · intro cid hc
    refine ⟨?_, ?_, ?_, ?_⟩
    · by_cases h2 : b.clientUpdate.status = 204 <;> simp [create_client, hc, h2]
    · intro bdy
      by_cases h2 : b.clientUpdate.status = 204 <;> simp [create_client, hc, h2]
    · intro h2; simp [create_client, hc, h2]
    · intro h2; simp [create_client, hc, h2]
  · intro hc
    refine ⟨?_, ?_, ?_, ?_⟩
    · by_cases h3 : b.clientCreate.status = 201 <;> simp [create_client, hc, h3]
    · intro cid bdy
      by_cases h3 : b.clientCreate.status = 201 <;> simp [create_client, hc, h3]
    · intro h3; simp [create_client, hc, h3]
    · intro h3; simp [create_client, hc, h3]

/-- C5 counterexample: the claim says a created-success status on the
role-mapping POST is reported as success, but on a backend answering that
POST with 201 Created the script prints the failure warning and neither
success message. -/
theorem claimC5_counterexample :
    Event.print ("Failed to assign role MICROSERVICES_ADMIN: created") ∈
      assign_client_role_to_user bAssign201 "user-1" "uuid-1" "MICROSERVICES_ADMIN" ∧
    Event.print "Successfully assigned role MICROSERVICES_ADMIN to user" ∉
      assign_client_role_to_user bAssign201 "user-1" "uuid-1" "MICROSERVICES_ADMIN" ∧
    Event.print "Role MICROSERVICES_ADMIN already assigned to user" ∉
      assign_client_role_to_user bAssign201 "user-1" "uuid-1" "MICROSERVICES_ADMIN" := by
  decide

/-- C5 (amended): if the role lookup does not return 200 the operation
aborts with only the logged message and no assignment request; otherwise it
POSTs to the role-mappings endpoint, reports success on a 204 (empty-body
success) status, reports already-assigned success on a 409 conflict, and
logs a warning with the response body on any other status. -/
theorem claimC5 (b : Backend) (uid cu rn : String) :
    (b.roleFetch.status ≠ 200 →
      assign_client_role_to_user b uid cu rn =
        [.request .GET (.role cu rn) .empty,
         .print ("Client role " ++ rn ++ " not found")]) ∧
    (b.roleFetch.status = 200 →
      Event.request .POST (.clientRoleMappings uid cu) (.roleList b.roleFetch.body) ∈
        assign_client_role_to_user b uid cu rn ∧
      (b.roleAssign.status = 204 →
        Event.print ("Successfully assigned role " ++ rn ++ " to user") ∈
          assign_client_role_to_user b uid cu rn) ∧
      (b.roleAssign.status = 409 →
        Event.print ("Role " ++ rn ++ " already assigned to user") ∈
          assign_client_role_to_user b uid cu rn) ∧
      (b.roleAssign.status ≠ 204 → b.roleAssign.status ≠ 409 →
        Event.print ("Failed to assign role " ++ rn ++ ": " ++ b.roleAssign.text) ∈
          assign_client_role_to_user b uid cu rn)) := by
  constructor
  · intro h
    simp [assign_client_role_to_user, get_client_role, h]
  · intro h
    refine ⟨?_, ?_, ?_, ?_⟩
    · by_cases h2 : b.roleAssign.status = 204
      · simp [assign_client_role_to_user, get_client_role, h, h2]
      · by_cases h3 : b.roleAssign.status = 409 <;>
          simp [assign_client_role_to_user, get_client_role, h, h2, h3]
    · intro h2; simp [assign_client_role_to_user, get_client_role, h, h2]
    · intro h3
      by_cases h2 : b.roleAssign.status = 204
      · omega
      · simp [assign_client_role_to_user, get_client_role, h, h2, h3]
    · intro h2 h3
      simp [assign_client_role_to_user, get_client_role, h, h2, h3]

/-- C6: when the user did not previously exist and the creation succeeded
but the post-create lookup finds nothing, the step ends with the failure
message and performs no role assignment (neither the role lookup nor the
role-mapping POST). -/
theorem claimC6 (b : Backend) (cu : String)
    (hpre : firstIfOk b.userLookupPre = none)
    (hcreate : b.userCreate.status = 201)
    (hpost : firstIfOk b.userLookupPost = none) :
    create_microservices_admin_user b cu =
      [.request .GET (.usersQuery "microservices-admin") .empty,
       .request .POST .users .userPayload,
       .print "Successfully created user microservices-admin",
       .request .GET (.usersQuery "microservices-admin") .empty,
       .print "Failed to get created user ID"] ∧
    (∀ uid cu2 bdy, Event.request .POST (.clientRoleMappings uid cu2) bdy ∉
      create_microservices_admin_user b cu) ∧
    (∀ cu2 rn bdy, Event.request .GET (.role cu2 rn) bdy ∉
      create_microservices_admin_user b cu) := by
  have htr : create_microservices_admin_user b cu =
      [.request .GET (.usersQuery "microservices-admin") .empty,
       .request .POST .users .userPayload,
       .print "Successfully created user microservices-admin",
       .request .GET (.usersQuery "microservices-admin") .empty,
       .print "Failed to get created user ID"] := by
    simp [create_microservices_admin_user, get_user_by_username, hpre, hcreate, hpost]
  refine ⟨htr, ?_, ?_⟩ <;> intro a1 a2 a3 <;> rw [htr] <;> simp

theorem claimC6_witness :
    create_microservices_admin_user bUserLost "uuid-1" =
      [.request .GET (.usersQuery "microservices-admin") .empty,
       .request .POST .users .userPayload,
       .print "Successfully created user microservices-admin",
       .request .GET (.usersQuery "microservices-admin") .empty,
       .print "Failed to get created user ID"] :=
  (claimC6 bUserLost "uuid-1" (by decide) (by decide) (by decide)).1

/-- C8: `get_admin_token` performs exactly one token-endpoint request with
no internal retry; it returns the token when the response status is below
400, and returns nothing whenever the endpoint is unreachable (any raised
exception) or the status is 400 or above (credentials rejected). -/
theorem claimC8 (r : TokenResult) :
    authAttempts (get_admin_token r).2 = 1 ∧
    ((get_admin_token r).1 = none ↔
      (r = .unreachable ∨ ∃ s t, r = .http s t ∧ 400 ≤ s)) ∧
    (∀ s t, r = .http s t → s < 400 → (get_admin_token r).1 = some t) := by
  cases r with
  | unreachable =>
      refine ⟨by decide, ?_, ?_⟩
      · simp [get_admin_token]
      · intro s t he _
        exact absurd he (by simp)
  | http s t =>
      by_cases h : 400 ≤ s
      · refine ⟨?_, ?_, ?_⟩
        · simp only [get_admin_token, if_pos h]
          exact evalAuthFailReq
        · simp only [get_admin_token, if_pos h]
          constructor
          · intro _
            exact Or.inr ⟨s, t, rfl, h⟩
          · intro _
            trivial
        · intro s2 t2 he hlt
          injection he with hs ht
          subst hs
          omega
      · refine ⟨?_, ?_, ?_⟩
        · simp only [get_admin_token, if_neg h]
          exact evalAuthOkReq
        · simp only [get_admin_token, if_neg h]
          constructor
          · intro hx
            exact absurd hx (by simp)
          · rintro (h1 | ⟨s2, t2, he, hge⟩)
            · exact absurd h1 (by simp)
            · injection he with hs ht
              subst hs
              omega
        · intro s2 t2 he _
          injection he with hs ht
          subst hs
          subst ht
          simp [get_admin_token, if_neg h]

/-- C9: when the user did not previously exist and the creation POST itself
returns a non-201 status, the step returns right after logging the failure
(with the response body) and no role-mapping request is issued. -/
theorem claimC9 (b : Backend) (cu : String)
    (hpre : firstIfOk b.userLookupPre = none)
    (hcreate : b.userCreate.status ≠ 201) :
    create_microservices_admin_user b cu =
      [.request .GET (.usersQuery "microservices-admin") .empty,
       .request .POST .users .userPayload,
       .print ("Failed to create user: " ++ b.userCreate.text)] ∧
    (∀ uid cu2 bdy, Event.request .POST (.clientRoleMappings uid cu2) bdy ∉
      create_microservices_admin_user b cu) := by
  have htr : create_microservices_admin_user b cu =
      [.request .GET (.usersQuery "microservices-admin") .empty,
       .request .POST .users .userPayload,
       .print ("Failed to create user: " ++ b.userCreate.text)] := by
    simp [create_microservices_admin_user, get_user_by_username, hpre, hcreate]
  refine ⟨htr, ?_⟩
  intro a1 a2 a3
  rw [htr]
  simp

theorem claimC9_witness :
    create_microservices_admin_user bUserFail "uuid-1" =
      [.request .GET (.usersQuery "microservices-admin") .empty,
       .request .POST .users .userPayload,
       .print ("Failed to create user: " ++ "conflict")] :=
  (claimC9 bUserFail "uuid-1" (by decide) (by decide)).1

end SetupKeycloak
